import Mathlib

/-!
Shallow embedding of the opencl-go/cl30 C bridge layer.

The repository is a set of thin C trampolines between OpenCL 3.0 and a host
runtime.  Every public bridge entry does exactly one thing: it calls one
underlying OpenCL entry point with arguments computed from its own arguments.
We embed each bridge entry as the record of arguments it passes to the
underlying OpenCL call (`...Call` definitions, one per C function, translated
line by line from the C source), together with a function parameterised by the
underlying OpenCL entry point (modelled as an arbitrary function from that
argument record to the C function's return type) that returns whatever the
underlying call returns.  Each C trampoline is embedded as the host-side call
it makes (a `HostCall` value built from the trampoline's arguments).

Pointer-sized C values (`void *`, `intptr_t`, `uintptr_t`, object handles)
are modelled by their bit pattern as a `Nat`; the C casts between these types
reinterpret the bit pattern and are identities in the model.  The address 0 is
NULL.  `cl_int` is modelled as `Int`, `cl_uint`, `size_t`,
`cl_device_type` and `cl_mem_migration_flags` as `Nat`.
-/

namespace CL30

/-- A pointer-sized C value, by its bit pattern. 0 is NULL. -/
abbrev Ptr := Nat

/-- The C trampoline functions defined in the source files. -/
inductive Trampoline where
  | cProgramBuildCallback
  | cProgramCompileCallback
  | cProgramLinkCallback
  | cEventCallback
  | cMemObjectDestructorCallback
  | cProgramReleaseCallback
  | cContextErrorCallback
  | cContextDestructorCallback
  | cKernelNativeCallback
  | cSvmFreeCallback
deriving DecidableEq

/-- A value occupying a C callback-function-pointer slot: NULL, the address of
one of the bridge's own trampolines, or a caller-supplied function pointer
forwarded by cast (`raw p`, NULL exactly when `p = 0`). -/
inductive Callback where
  | null
  | tramp (t : Trampoline)
  | raw (p : Ptr)
deriving DecidableEq

/-- Whether the bit pattern placed in the callback slot is NULL. -/
def Callback.isNull : Callback → Bool
  | .null => true
  | .tramp _ => false
  | .raw p => p == 0

/-- A call made by a trampoline to one of the `extern` host-side (Go) entry
points, with the argument values passed. -/
inductive HostCall where
  | goEventCallback (event : Ptr) (commandStatus : Int) (userData : Ptr)
  | goMemObjectDestructorCallback (mem : Ptr) (userData : Ptr)
  | goProgramReleaseCallback (program : Ptr) (userData : Ptr)
  | goProgramBuildCallback (program : Ptr) (userData : Ptr)
  | goProgramCompileCallback (program : Ptr) (userData : Ptr)
  | goProgramLinkCallback (program : Ptr) (userData : Ptr)
  | goContextErrorCallback (errorInfo : Ptr) (privateInfoPtr : Ptr)
      (privateInfoLen : Nat) (userData : Ptr)
  | goContextDestructorCallback (context : Ptr) (userData : Ptr)
  | goKernelNativeCallback (args : Ptr)
  | goSvmFreeCallback (commandQueue : Ptr) (svmPointerCount : Nat)
      (svmPointers : Ptr) (userData : Ptr)
deriving DecidableEq

/-- The user-data argument a host call forwards, when its host entry point has
one (`cl30GoKernelNativeCallback` takes only the argument block). -/
def HostCall.userDataArg : HostCall → Option Ptr
  | .goEventCallback _ _ u => some u
  | .goMemObjectDestructorCallback _ u => some u
  | .goProgramReleaseCallback _ u => some u
  | .goProgramBuildCallback _ u => some u
  | .goProgramCompileCallback _ u => some u
  | .goProgramLinkCallback _ u => some u
  | .goContextErrorCallback _ _ _ u => some u
  | .goContextDestructorCallback _ u => some u
  | .goKernelNativeCallback _ => none
  | .goSvmFreeCallback _ _ _ u => some u

/-! ## program.c -/

/-- Arguments passed to the underlying clBuildProgram. -/
structure ClBuildProgramArgs where
  program : Ptr
  numDevices : Nat
  devices : Ptr
  options : Ptr
  pfnNotify : Callback
  userData : Ptr
deriving DecidableEq

/-- Arguments passed to the underlying clCompileProgram. -/
structure ClCompileProgramArgs where
  program : Ptr
  numDevices : Nat
  devices : Ptr
  options : Ptr
  numInputHeaders : Nat
  headers : Ptr
  includeNames : Ptr
  pfnNotify : Callback
  userData : Ptr
deriving DecidableEq

/-- Arguments passed to the underlying clLinkProgram. -/
structure ClLinkProgramArgs where
  context : Ptr
  numDevices : Nat
  devices : Ptr
  options : Ptr
  numInputPrograms : Nat
  programs : Ptr
  pfnNotify : Callback
  userData : Ptr
  errReturn : Ptr
deriving DecidableEq

/-- program.c, cl30CProgramBuildCallback: forwards `(program, userData)` to
`cl30GoProgramBuildCallback`, casting userData to `uintptr_t *`. -/
def cl30CProgramBuildCallback (program : Ptr) (userData : Ptr) : HostCall :=
  .goProgramBuildCallback program userData

/-- program.c, cl30BuildProgram: the arguments it passes to clBuildProgram.
The callback slot gets `cl30CProgramBuildCallback` when `userData != NULL`,
else NULL; userData is forwarded as-is. -/
def cl30BuildProgramCall (program : Ptr) (numDevices : Nat)
    (devices options userData : Ptr) : ClBuildProgramArgs :=
  { program := program, numDevices := numDevices, devices := devices,
    options := options,
    pfnNotify := if userData ≠ 0 then .tramp .cProgramBuildCallback else .null,
    userData := userData }

/-- program.c, cl30BuildProgram: returns whatever clBuildProgram (modelled as
the function argument) returns. -/
def cl30BuildProgram (clBuildProgram : ClBuildProgramArgs → Int)
    (program : Ptr) (numDevices : Nat) (devices options userData : Ptr) : Int :=
  clBuildProgram (cl30BuildProgramCall program numDevices devices options userData)

/-- program.c, cl30CProgramCompileCallback: forwards `(program, userData)` to
`cl30GoProgramCompileCallback`. -/
def cl30CProgramCompileCallback (program : Ptr) (userData : Ptr) : HostCall :=
  .goProgramCompileCallback program userData

/-- program.c, cl30CompileProgram: the arguments it passes to clCompileProgram. -/
def cl30CompileProgramCall (program : Ptr) (numDevices : Nat)
    (devices options : Ptr) (numInputHeaders : Nat)
    (headers includeNames userData : Ptr) : ClCompileProgramArgs :=
  { program := program, numDevices := numDevices, devices := devices,
    options := options, numInputHeaders := numInputHeaders, headers := headers,
    includeNames := includeNames,
    pfnNotify := if userData ≠ 0 then .tramp .cProgramCompileCallback else .null,
    userData := userData }

/-- program.c, cl30CompileProgram: returns whatever clCompileProgram returns. -/
def cl30CompileProgram (clCompileProgram : ClCompileProgramArgs → Int)
    (program : Ptr) (numDevices : Nat) (devices options : Ptr)
    (numInputHeaders : Nat) (headers includeNames userData : Ptr) : Int :=
  clCompileProgram (cl30CompileProgramCall program numDevices devices options
    numInputHeaders headers includeNames userData)

/-- program.c, cl30CProgramLinkCallback: forwards `(program, userData)` to
`cl30GoProgramLinkCallback`. -/
def cl30CProgramLinkCallback (program : Ptr) (userData : Ptr) : HostCall :=
  .goProgramLinkCallback program userData

/-- program.c, cl30LinkProgram: the arguments it passes to clLinkProgram,
including the forwarded `errReturn` out-parameter pointer. -/
def cl30LinkProgramCall (context : Ptr) (numDevices : Nat)
    (devices options : Ptr) (numInputPrograms : Nat)
    (programs userData errReturn : Ptr) : ClLinkProgramArgs :=
  { context := context, numDevices := numDevices, devices := devices,
    options := options, numInputPrograms := numInputPrograms,
    programs := programs,
    pfnNotify := if userData ≠ 0 then .tramp .cProgramLinkCallback else .null,
    userData := userData, errReturn := errReturn }

/-- program.c, cl30LinkProgram: returns the cl_program handle that
clLinkProgram returns. -/
def cl30LinkProgram (clLinkProgram : ClLinkProgramArgs → Ptr)
    (context : Ptr) (numDevices : Nat) (devices options : Ptr)
    (numInputPrograms : Nat) (programs userData errReturn : Ptr) : Ptr :=
  clLinkProgram (cl30LinkProgramCall context numDevices devices options
    numInputPrograms programs userData errReturn)

/-! ## event.c -/

/-- Arguments passed to the underlying clSetEventCallback. -/
structure ClSetEventCallbackArgs where
  event : Ptr
  callbackType : Int
  pfnNotify : Callback
  userData : Ptr
deriving DecidableEq

/-- event.c, cl30CEventCallback: forwards `(event, commandStatus, userData)` to
`cl30GoEventCallback`, casting userData to `intptr_t *`. -/
def cl30CEventCallback (event : Ptr) (commandStatus : Int) (userData : Ptr) :
    HostCall :=
  .goEventCallback event commandStatus userData

/-- event.c, cl30SetEventCallback: the arguments it passes to
clSetEventCallback. The trampoline is installed unconditionally. -/
def cl30SetEventCallbackCall (event : Ptr) (callbackType : Int)
    (userData : Ptr) : ClSetEventCallbackArgs :=
  { event := event, callbackType := callbackType,
    pfnNotify := .tramp .cEventCallback, userData := userData }

/-- event.c, cl30SetEventCallback: returns whatever clSetEventCallback returns. -/
def cl30SetEventCallback (clSetEventCallback : ClSetEventCallbackArgs → Int)
    (event : Ptr) (callbackType : Int) (userData : Ptr) : Int :=
  clSetEventCallback (cl30SetEventCallbackCall event callbackType userData)

/-! ## memory.c -/

/-- Arguments passed to the underlying clSetMemObjectDestructorCallback. -/
structure ClSetMemObjectDestructorCallbackArgs where
  mem : Ptr
  pfnNotify : Callback
  userData : Ptr
deriving DecidableEq

/-- memory.c, cl30CMemObjectDestructorCallback: forwards `(mem, userData)` to
`cl30GoMemObjectDestructorCallback`. -/
def cl30CMemObjectDestructorCallback (mem : Ptr) (userData : Ptr) : HostCall :=
  .goMemObjectDestructorCallback mem userData

/-- memory.c, cl30SetMemObjectDestructorCallback: the arguments it passes to
clSetMemObjectDestructorCallback. The trampoline is installed unconditionally. -/
def cl30SetMemObjectDestructorCallbackCall (mem : Ptr) (userData : Ptr) :
    ClSetMemObjectDestructorCallbackArgs :=
  { mem := mem, pfnNotify := .tramp .cMemObjectDestructorCallback,
    userData := userData }

/-- memory.c, cl30SetMemObjectDestructorCallback: returns whatever
clSetMemObjectDestructorCallback returns. -/
def cl30SetMemObjectDestructorCallback
    (clSetMemObjectDestructorCallback : ClSetMemObjectDestructorCallbackArgs → Int)
    (mem : Ptr) (userData : Ptr) : Int :=
  clSetMemObjectDestructorCallback
    (cl30SetMemObjectDestructorCallbackCall mem userData)

/-! ## deprecated.c -/

/-- Arguments passed to the underlying clSetProgramReleaseCallback. -/
structure ClSetProgramReleaseCallbackArgs where
  program : Ptr
  pfnNotify : Callback
  userData : Ptr
deriving DecidableEq

/-- deprecated.c, cl30CProgramReleaseCallback: forwards `(program, userData)`
to `cl30GoProgramReleaseCallback`. -/
def cl30CProgramReleaseCallback (program : Ptr) (userData : Ptr) : HostCall :=
  .goProgramReleaseCallback program userData

/-- deprecated.c, cl30SetProgramReleaseCallback: the arguments it passes to
clSetProgramReleaseCallback. The trampoline is installed unconditionally. -/
def cl30SetProgramReleaseCallbackCall (program : Ptr) (userData : Ptr) :
    ClSetProgramReleaseCallbackArgs :=
  { program := program, pfnNotify := .tramp .cProgramReleaseCallback,
    userData := userData }

/-- deprecated.c, cl30SetProgramReleaseCallback: returns whatever
clSetProgramReleaseCallback returns. -/
def cl30SetProgramReleaseCallback
    (clSetProgramReleaseCallback : ClSetProgramReleaseCallbackArgs → Int)
    (program : Ptr) (userData : Ptr) : Int :=
  clSetProgramReleaseCallback
    (cl30SetProgramReleaseCallbackCall program userData)

/-! ## platform_context.c -/

/-- Arguments passed to the underlying clCreateContext. -/
structure ClCreateContextArgs where
  properties : Ptr
  numDevices : Nat
  devices : Ptr
  pfnNotify : Callback
  userData : Ptr
  errcodeReturn : Ptr
deriving DecidableEq

/-- Arguments passed to the underlying clCreateContextFromType. -/
structure ClCreateContextFromTypeArgs where
  properties : Ptr
  deviceType : Nat
  pfnNotify : Callback
  userData : Ptr
  errcodeReturn : Ptr
deriving DecidableEq

/-- Arguments passed to the underlying clSetContextDestructorCallback. -/
structure ClSetContextDestructorCallbackArgs where
  context : Ptr
  pfnNotify : Callback
  userData : Ptr
deriving DecidableEq

/-- platform_context.c, cl30CContextErrorCallback: forwards
`(errorInfo, privateInfoPtr, privateInfoLen, userData)` to
`cl30GoContextErrorCallback`, casting userData to `intptr_t`. -/
def cl30CContextErrorCallback (errorInfo : Ptr) (privateInfoPtr : Ptr)
    (privateInfoLen : Nat) (userData : Ptr) : HostCall :=
  .goContextErrorCallback errorInfo privateInfoPtr privateInfoLen userData

/-- platform_context.c, cl30CreateContext: the arguments it passes to
clCreateContext.  The caller-supplied `notify` pointer is cast to the OpenCL
callback-function-pointer type and forwarded as-is, and `userData` (an
`intptr_t`) is cast to `void *` and forwarded as-is; there is no branch on
either value. -/
def cl30CreateContextCall (properties : Ptr) (numDevices : Nat)
    (devices notify userData errcodeReturn : Ptr) : ClCreateContextArgs :=
  { properties := properties, numDevices := numDevices, devices := devices,
    pfnNotify := .raw notify, userData := userData,
    errcodeReturn := errcodeReturn }

/-- platform_context.c, cl30CreateContext: returns the cl_context handle that
clCreateContext returns. -/
def cl30CreateContext (clCreateContext : ClCreateContextArgs → Ptr)
    (properties : Ptr) (numDevices : Nat)
    (devices notify userData errcodeReturn : Ptr) : Ptr :=
  clCreateContext (cl30CreateContextCall properties numDevices devices notify
    userData errcodeReturn)

/-- platform_context.c, cl30CreateContextFromType: the arguments it passes to
clCreateContextFromType; `notify` and `userData` are cast and forwarded as-is. -/
def cl30CreateContextFromTypeCall (properties : Ptr) (deviceType : Nat)
    (notify userData errcodeReturn : Ptr) : ClCreateContextFromTypeArgs :=
  { properties := properties, deviceType := deviceType,
    pfnNotify := .raw notify, userData := userData,
    errcodeReturn := errcodeReturn }

/-- platform_context.c, cl30CreateContextFromType: returns the cl_context
handle that clCreateContextFromType returns. -/
def cl30CreateContextFromType
    (clCreateContextFromType : ClCreateContextFromTypeArgs → Ptr)
    (properties : Ptr) (deviceType : Nat)
    (notify userData errcodeReturn : Ptr) : Ptr :=
  clCreateContextFromType (cl30CreateContextFromTypeCall properties deviceType
    notify userData errcodeReturn)

/-- platform_context.c, cl30SetContextDestructorCallback: the arguments it
passes to clSetContextDestructorCallback.  The caller-supplied `notify`
pointer is cast to the OpenCL callback type and forwarded as-is together with
`userData`; the function does not reference the resident trampoline
`cl30CContextDestructorCallback` and has no null branch. -/
def cl30SetContextDestructorCallbackCall (context notify userData : Ptr) :
    ClSetContextDestructorCallbackArgs :=
  { context := context, pfnNotify := .raw notify, userData := userData }

/-- platform_context.c, cl30SetContextDestructorCallback: returns whatever
clSetContextDestructorCallback returns. -/
def cl30SetContextDestructorCallback
    (clSetContextDestructorCallback : ClSetContextDestructorCallbackArgs → Int)
    (context notify userData : Ptr) : Int :=
  clSetContextDestructorCallback
    (cl30SetContextDestructorCallbackCall context notify userData)

/-- platform_context.c, cl30CContextDestructorCallback: forwards
`(context, userData)` to `cl30GoContextDestructorCallback`. -/
def cl30CContextDestructorCallback (context : Ptr) (userData : Ptr) : HostCall :=
  .goContextDestructorCallback context userData

/-! ## kernel.c -/

/-- Arguments passed to the underlying clEnqueueNativeKernel. -/
structure ClEnqueueNativeKernelArgs where
  commandQueue : Ptr
  userFunc : Callback
  args : Ptr
  cbArgs : Nat
  numMemObjects : Nat
  memList : Ptr
  argsMemLoc : Ptr
  waitListCount : Nat
  waitList : Ptr
  event : Ptr
deriving DecidableEq

/-- kernel.c, cl30CKernelNativeCallback: forwards the argument-block pointer,
and nothing else, to `cl30GoKernelNativeCallback`. -/
def cl30CKernelNativeCallback (args : Ptr) : HostCall :=
  .goKernelNativeCallback args

/-- kernel.c, cl30EnqueueNativeKernel: the arguments it passes to
clEnqueueNativeKernel.  The kernel-function slot always gets
`cl30CKernelNativeCallback`; every other argument, including the
memory-object list and the arg-mem-location list, is forwarded as-is
(argsMemLoc by a pointer cast). -/
def cl30EnqueueNativeKernelCall (commandQueue args : Ptr) (argsSize : Nat)
    (numMemObjects : Nat) (memList argsMemLoc : Ptr) (waitListCount : Nat)
    (waitList event : Ptr) : ClEnqueueNativeKernelArgs :=
  { commandQueue := commandQueue, userFunc := .tramp .cKernelNativeCallback,
    args := args, cbArgs := argsSize, numMemObjects := numMemObjects,
    memList := memList, argsMemLoc := argsMemLoc,
    waitListCount := waitListCount, waitList := waitList, event := event }

/-- kernel.c, cl30EnqueueNativeKernel: returns whatever clEnqueueNativeKernel
returns. -/
def cl30EnqueueNativeKernel
    (clEnqueueNativeKernel : ClEnqueueNativeKernelArgs → Int)
    (commandQueue args : Ptr) (argsSize : Nat) (numMemObjects : Nat)
    (memList argsMemLoc : Ptr) (waitListCount : Nat)
    (waitList event : Ptr) : Int :=
  clEnqueueNativeKernel (cl30EnqueueNativeKernelCall commandQueue args argsSize
    numMemObjects memList argsMemLoc waitListCount waitList event)

/-! ## svm.c -/

/-- Arguments passed to the underlying clEnqueueSVMFree. -/
structure ClEnqueueSVMFreeArgs where
  commandQueue : Ptr
  svmPointerCount : Nat
  svmPointers : Ptr
  pfnFreeFunc : Callback
  userData : Ptr
  waitListCount : Nat
  waitList : Ptr
  event : Ptr
deriving DecidableEq

/-- Arguments passed to the underlying clEnqueueSVMMigrateMem. -/
structure ClEnqueueSVMMigrateMemArgs where
  commandQueue : Ptr
  svmPointerCount : Nat
  svmPointers : Ptr
  sizes : Ptr
  flags : Nat
  waitListCount : Nat
  waitList : Ptr
  event : Ptr
deriving DecidableEq

/-- svm.c, cl30CSvmFreeCallback: forwards
`(commandQueue, svmPointerCount, svmPointers, userData)` to
`cl30GoSvmFreeCallback`, casting userData to `uintptr_t *`. -/
def cl30CSvmFreeCallback (commandQueue : Ptr) (svmPointerCount : Nat)
    (svmPointers : Ptr) (userData : Ptr) : HostCall :=
  .goSvmFreeCallback commandQueue svmPointerCount svmPointers userData

/-- svm.c, cl30EnqueueSVMFree: the arguments it passes to clEnqueueSVMFree.
The free-function slot gets `cl30CSvmFreeCallback` when `userData != NULL`,
else NULL; userData is forwarded as-is. -/
def cl30EnqueueSVMFreeCall (commandQueue : Ptr) (svmPointerCount : Nat)
    (svmPointers userData : Ptr) (waitListCount : Nat)
    (waitList event : Ptr) : ClEnqueueSVMFreeArgs :=
  { commandQueue := commandQueue, svmPointerCount := svmPointerCount,
    svmPointers := svmPointers,
    pfnFreeFunc := if userData ≠ 0 then .tramp .cSvmFreeCallback else .null,
    userData := userData, waitListCount := waitListCount,
    waitList := waitList, event := event }

/-- svm.c, cl30EnqueueSVMFree: returns whatever clEnqueueSVMFree returns. -/
def cl30EnqueueSVMFree (clEnqueueSVMFree : ClEnqueueSVMFreeArgs → Int)
    (commandQueue : Ptr) (svmPointerCount : Nat) (svmPointers userData : Ptr)
    (waitListCount : Nat) (waitList event : Ptr) : Int :=
  clEnqueueSVMFree (cl30EnqueueSVMFreeCall commandQueue svmPointerCount
    svmPointers userData waitListCount waitList event)

/-- svm.c, cl30EnqueueSVMMigrateMem: the arguments it passes to
clEnqueueSVMMigrateMem; every argument is forwarded as-is (svmPointers by a
pointer cast), and the underlying entry point has no callback or user-data
slot at all. -/
def cl30EnqueueSVMMigrateMemCall (commandQueue : Ptr) (svmPointerCount : Nat)
    (svmPointers sizes : Ptr) (flags : Nat) (waitListCount : Nat)
    (waitList event : Ptr) : ClEnqueueSVMMigrateMemArgs :=
  { commandQueue := commandQueue, svmPointerCount := svmPointerCount,
    svmPointers := svmPointers, sizes := sizes, flags := flags,
    waitListCount := waitListCount, waitList := waitList, event := event }

/-- svm.c, cl30EnqueueSVMMigrateMem: returns whatever clEnqueueSVMMigrateMem
returns. -/
def cl30EnqueueSVMMigrateMem
    (clEnqueueSVMMigrateMem : ClEnqueueSVMMigrateMemArgs → Int)
    (commandQueue : Ptr) (svmPointerCount : Nat) (svmPointers sizes : Ptr)
    (flags : Nat) (waitListCount : Nat) (waitList event : Ptr) : Int :=
  clEnqueueSVMMigrateMem (cl30EnqueueSVMMigrateMemCall commandQueue
    svmPointerCount svmPointers sizes flags waitListCount waitList event)

/-! ## Environment model: OpenCL blocking semantics for program builds -/

/-- Whether an OpenCL program build/compile/link call blocks until the build
finishes or returns after enqueueing. -/
inductive CallMode where
  | synchronous
  | asynchronous
deriving DecidableEq

/-- Modelled from the spec: OpenCL (external to this repository) runs
clBuildProgram, clCompileProgram and clLinkProgram synchronously exactly when
the pfn_notify argument it receives is NULL, and asynchronously otherwise
("null token ⇒ synchronous call (OpenCL blocks until build completes);
non-null token ⇒ asynchronous call with trampoline"). -/
def buildCallMode (pfnNotify : Callback) : CallMode :=
  if pfnNotify.isNull then .synchronous else .asynchronous

/-! ## Helpers for callback-insensitive underlying calls -/

/-- The arguments of a clSetMemObjectDestructorCallback call other than the
callback-function pointer. -/
structure MemDestructorCallSansNotify where
  mem : Ptr
  userData : Ptr
deriving DecidableEq

/-- Drops the callback-function pointer from a
clSetMemObjectDestructorCallback argument record. -/
def dropMemNotify (a : ClSetMemObjectDestructorCallbackArgs) :
    MemDestructorCallSansNotify :=
  { mem := a.mem, userData := a.userData }

/-- Replaces the callback-function pointer of a
clSetMemObjectDestructorCallback argument record. -/
def ClSetMemObjectDestructorCallbackArgs.withNotify
    (a : ClSetMemObjectDestructorCallbackArgs) (c : Callback) :
    ClSetMemObjectDestructorCallbackArgs :=
  { mem := a.mem, pfnNotify := c, userData := a.userData }

/-- The arguments of a clLinkProgram call other than the callback-function
pointer. -/
structure LinkCallSansNotify where
  context : Ptr
  numDevices : Nat
  devices : Ptr
  options : Ptr
  numInputPrograms : Nat
  programs : Ptr
  userData : Ptr
  errReturn : Ptr
deriving DecidableEq

/-- Drops the callback-function pointer from a clLinkProgram argument record. -/
def dropLinkNotify (a : ClLinkProgramArgs) : LinkCallSansNotify :=
  { context := a.context, numDevices := a.numDevices, devices := a.devices,
    options := a.options, numInputPrograms := a.numInputPrograms,
    programs := a.programs, userData := a.userData, errReturn := a.errReturn }

/-- Replaces the callback-function pointer of a clLinkProgram argument record. -/
def ClLinkProgramArgs.withNotify (a : ClLinkProgramArgs) (c : Callback) :
    ClLinkProgramArgs :=
  { context := a.context, numDevices := a.numDevices, devices := a.devices,
    options := a.options, numInputPrograms := a.numInputPrograms,
    programs := a.programs, pfnNotify := c, userData := a.userData,
    errReturn := a.errReturn }

/-- The arguments of a clBuildProgram call other than the callback-function
pointer. -/
structure BuildCallSansNotify where
  program : Ptr
  numDevices : Nat
  devices : Ptr
  options : Ptr
  userData : Ptr
deriving DecidableEq

/-- Drops the callback-function pointer from a clBuildProgram argument record. -/
def dropBuildNotify (a : ClBuildProgramArgs) : BuildCallSansNotify :=
  { program := a.program, numDevices := a.numDevices, devices := a.devices,
    options := a.options, userData := a.userData }

/-- Replaces the callback-function pointer of a clBuildProgram argument
record. -/
def ClBuildProgramArgs.withNotify (a : ClBuildProgramArgs) (c : Callback) :
    ClBuildProgramArgs :=
  { program := a.program, numDevices := a.numDevices, devices := a.devices,
    options := a.options, pfnNotify := c, userData := a.userData }

/-- The arguments of a clCompileProgram call other than the callback-function
pointer. -/
structure CompileCallSansNotify where
  program : Ptr
  numDevices : Nat
  devices : Ptr
  options : Ptr
  numInputHeaders : Nat
  headers : Ptr
  includeNames : Ptr
  userData : Ptr
deriving DecidableEq

/-- Drops the callback-function pointer from a clCompileProgram argument
record. -/
def dropCompileNotify (a : ClCompileProgramArgs) : CompileCallSansNotify :=
  { program := a.program, numDevices := a.numDevices, devices := a.devices,
    options := a.options, numInputHeaders := a.numInputHeaders,
    headers := a.headers, includeNames := a.includeNames,
    userData := a.userData }

/-- Replaces the callback-function pointer of a clCompileProgram argument
record. -/
def ClCompileProgramArgs.withNotify (a : ClCompileProgramArgs) (c : Callback) :
    ClCompileProgramArgs :=
  { program := a.program, numDevices := a.numDevices, devices := a.devices,
    options := a.options, numInputHeaders := a.numInputHeaders,
    headers := a.headers, includeNames := a.includeNames, pfnNotify := c,
    userData := a.userData }

/-- The arguments of a clSetEventCallback call other than the
callback-function pointer. -/
structure EventCallSansNotify where
  event : Ptr
  callbackType : Int
  userData : Ptr
deriving DecidableEq

/-- Drops the callback-function pointer from a clSetEventCallback argument
record. -/
def dropEventNotify (a : ClSetEventCallbackArgs) : EventCallSansNotify :=
  { event := a.event, callbackType := a.callbackType, userData := a.userData }

/-- Replaces the callback-function pointer of a clSetEventCallback argument
record. -/
def ClSetEventCallbackArgs.withNotify (a : ClSetEventCallbackArgs)
    (c : Callback) : ClSetEventCallbackArgs :=
  { event := a.event, callbackType := a.callbackType, pfnNotify := c,
    userData := a.userData }

/-- The arguments of a clSetProgramReleaseCallback call other than the
callback-function pointer. -/
structure ReleaseCallSansNotify where
  program : Ptr
  userData : Ptr
deriving DecidableEq

/-- Drops the callback-function pointer from a clSetProgramReleaseCallback
argument record. -/
def dropReleaseNotify (a : ClSetProgramReleaseCallbackArgs) :
    ReleaseCallSansNotify :=
  { program := a.program, userData := a.userData }

/-- Replaces the callback-function pointer of a clSetProgramReleaseCallback
argument record. -/
def ClSetProgramReleaseCallbackArgs.withNotify
    (a : ClSetProgramReleaseCallbackArgs) (c : Callback) :
    ClSetProgramReleaseCallbackArgs :=
  { program := a.program, pfnNotify := c, userData := a.userData }

/-- The arguments of a clCreateContext call other than the callback-function
pointer. -/
structure CreateContextCallSansNotify where
  properties : Ptr
  numDevices : Nat
  devices : Ptr
  userData : Ptr
  errcodeReturn : Ptr
deriving DecidableEq

/-- Drops the callback-function pointer from a clCreateContext argument
record. -/
def dropCreateContextNotify (a : ClCreateContextArgs) :
    CreateContextCallSansNotify :=
  { properties := a.properties, numDevices := a.numDevices,
    devices := a.devices, userData := a.userData,
    errcodeReturn := a.errcodeReturn }

/-- Replaces the callback-function pointer of a clCreateContext argument
record. -/
def ClCreateContextArgs.withNotify (a : ClCreateContextArgs) (c : Callback) :
    ClCreateContextArgs :=
  { properties := a.properties, numDevices := a.numDevices,
    devices := a.devices, pfnNotify := c, userData := a.userData,
    errcodeReturn := a.errcodeReturn }

/-- The arguments of a clCreateContextFromType call other than the
callback-function pointer. -/
structure CreateContextFromTypeCallSansNotify where
  properties : Ptr
  deviceType : Nat
  userData : Ptr
  errcodeReturn : Ptr
deriving DecidableEq

/-- Drops the callback-function pointer from a clCreateContextFromType
argument record. -/
def dropCreateContextFromTypeNotify (a : ClCreateContextFromTypeArgs) :
    CreateContextFromTypeCallSansNotify :=
  { properties := a.properties, deviceType := a.deviceType,
    userData := a.userData, errcodeReturn := a.errcodeReturn }

/-- Replaces the callback-function pointer of a clCreateContextFromType
argument record. -/
def ClCreateContextFromTypeArgs.withNotify (a : ClCreateContextFromTypeArgs)
    (c : Callback) : ClCreateContextFromTypeArgs :=
  { properties := a.properties, deviceType := a.deviceType, pfnNotify := c,
    userData := a.userData, errcodeReturn := a.errcodeReturn }

/-- The arguments of a clSetContextDestructorCallback call other than the
callback-function pointer. -/
structure ContextDestructorCallSansNotify where
  context : Ptr
  userData : Ptr
deriving DecidableEq

/-- Drops the callback-function pointer from a clSetContextDestructorCallback
argument record. -/
def dropContextDestructorNotify (a : ClSetContextDestructorCallbackArgs) :
    ContextDestructorCallSansNotify :=
  { context := a.context, userData := a.userData }

/-- Replaces the callback-function pointer of a clSetContextDestructorCallback
argument record. -/
def ClSetContextDestructorCallbackArgs.withNotify
    (a : ClSetContextDestructorCallbackArgs) (c : Callback) :
    ClSetContextDestructorCallbackArgs :=
  { context := a.context, pfnNotify := c, userData := a.userData }

/-- The arguments of a clEnqueueNativeKernel call other than the
kernel-function pointer. -/
structure NativeKernelCallSansFunc where
  commandQueue : Ptr
  args : Ptr
  cbArgs : Nat
  numMemObjects : Nat
  memList : Ptr
  argsMemLoc : Ptr
  waitListCount : Nat
  waitList : Ptr
  event : Ptr
deriving DecidableEq

/-- Drops the kernel-function pointer from a clEnqueueNativeKernel argument
record. -/
def dropNativeKernelFunc (a : ClEnqueueNativeKernelArgs) :
    NativeKernelCallSansFunc :=
  { commandQueue := a.commandQueue, args := a.args, cbArgs := a.cbArgs,
    numMemObjects := a.numMemObjects, memList := a.memList,
    argsMemLoc := a.argsMemLoc, waitListCount := a.waitListCount,
    waitList := a.waitList, event := a.event }

/-- Replaces the kernel-function pointer of a clEnqueueNativeKernel argument
record. -/
def ClEnqueueNativeKernelArgs.withFunc (a : ClEnqueueNativeKernelArgs)
    (c : Callback) : ClEnqueueNativeKernelArgs :=
  { commandQueue := a.commandQueue, userFunc := c, args := a.args,
    cbArgs := a.cbArgs, numMemObjects := a.numMemObjects,
    memList := a.memList, argsMemLoc := a.argsMemLoc,
    waitListCount := a.waitListCount, waitList := a.waitList,
    event := a.event }

/-- The arguments of a clEnqueueSVMFree call other than the free-function
pointer. -/
structure SVMFreeCallSansFunc where
  commandQueue : Ptr
  svmPointerCount : Nat
  svmPointers : Ptr
  userData : Ptr
  waitListCount : Nat
  waitList : Ptr
  event : Ptr
deriving DecidableEq

/-- Drops the free-function pointer from a clEnqueueSVMFree argument record. -/
def dropSVMFreeFunc (a : ClEnqueueSVMFreeArgs) : SVMFreeCallSansFunc :=
  { commandQueue := a.commandQueue, svmPointerCount := a.svmPointerCount,
    svmPointers := a.svmPointers, userData := a.userData,
    waitListCount := a.waitListCount, waitList := a.waitList,
    event := a.event }

/-- Replaces the free-function pointer of a clEnqueueSVMFree argument record. -/
def ClEnqueueSVMFreeArgs.withFreeFunc (a : ClEnqueueSVMFreeArgs)
    (c : Callback) : ClEnqueueSVMFreeArgs :=
  { commandQueue := a.commandQueue, svmPointerCount := a.svmPointerCount,
    svmPointers := a.svmPointers, pfnFreeFunc := c, userData := a.userData,
    waitListCount := a.waitListCount, waitList := a.waitList,
    event := a.event }

/-! ## Trace model for statelessness

The C translation units declare no global or static variables of any kind
(only `static` functions), so the mutable global state of the bridge is the
empty record `GlobalState`.  A bridge invocation is a `BridgeCall`; stepping a
bridge invocation in a state issues one underlying OpenCL call and yields the
next state. -/

/-- The mutable global/static data of the bridge's C translation units: the
source files declare none, so the state carries no fields. -/
structure GlobalState where
deriving DecidableEq

/-- One call to a public bridge entry, with its argument values. -/
inductive BridgeCall where
  | buildProgram (program : Ptr) (numDevices : Nat)
      (devices options userData : Ptr)
  | compileProgram (program : Ptr) (numDevices : Nat) (devices options : Ptr)
      (numInputHeaders : Nat) (headers includeNames userData : Ptr)
  | linkProgram (context : Ptr) (numDevices : Nat) (devices options : Ptr)
      (numInputPrograms : Nat) (programs userData errReturn : Ptr)
  | setEventCallback (event : Ptr) (callbackType : Int) (userData : Ptr)
  | setMemObjectDestructorCallback (mem userData : Ptr)
  | setProgramReleaseCallback (program userData : Ptr)
  | createContext (properties : Ptr) (numDevices : Nat)
      (devices notify userData errcodeReturn : Ptr)
  | createContextFromType (properties : Ptr) (deviceType : Nat)
      (notify userData errcodeReturn : Ptr)
  | setContextDestructorCallback (context notify userData : Ptr)
  | enqueueNativeKernel (commandQueue args : Ptr) (argsSize numMemObjects : Nat)
      (memList argsMemLoc : Ptr) (waitListCount : Nat) (waitList event : Ptr)
  | enqueueSVMFree (commandQueue : Ptr) (svmPointerCount : Nat)
      (svmPointers userData : Ptr) (waitListCount : Nat) (waitList event : Ptr)
  | enqueueSVMMigrateMem (commandQueue : Ptr) (svmPointerCount : Nat)
      (svmPointers sizes : Ptr) (flags waitListCount : Nat)
      (waitList event : Ptr)
deriving DecidableEq

/-- One call issued to an underlying OpenCL entry point, with its arguments. -/
inductive UnderlyingCall where
  | clBuildProgram (a : ClBuildProgramArgs)
  | clCompileProgram (a : ClCompileProgramArgs)
  | clLinkProgram (a : ClLinkProgramArgs)
  | clSetEventCallback (a : ClSetEventCallbackArgs)
  | clSetMemObjectDestructorCallback (a : ClSetMemObjectDestructorCallbackArgs)
  | clSetProgramReleaseCallback (a : ClSetProgramReleaseCallbackArgs)
  | clCreateContext (a : ClCreateContextArgs)
  | clCreateContextFromType (a : ClCreateContextFromTypeArgs)
  | clSetContextDestructorCallback (a : ClSetContextDestructorCallbackArgs)
  | clEnqueueNativeKernel (a : ClEnqueueNativeKernelArgs)
  | clEnqueueSVMFree (a : ClEnqueueSVMFreeArgs)
  | clEnqueueSVMMigrateMem (a : ClEnqueueSVMMigrateMemArgs)
deriving DecidableEq

/-- The underlying OpenCL call a bridge invocation issues, as a function of the
invocation's arguments alone (each case delegates to the per-bridge argument
construction translated from the C source). -/
def lowerBridgeCall : BridgeCall → UnderlyingCall
  | .buildProgram p nd d o ud =>
      .clBuildProgram (cl30BuildProgramCall p nd d o ud)
  | .compileProgram p nd d o nih h inames ud =>
      .clCompileProgram (cl30CompileProgramCall p nd d o nih h inames ud)
  | .linkProgram c nd d o nip progs ud er =>
      .clLinkProgram (cl30LinkProgramCall c nd d o nip progs ud er)
  | .setEventCallback e ct ud =>
      .clSetEventCallback (cl30SetEventCallbackCall e ct ud)
  | .setMemObjectDestructorCallback m ud =>
      .clSetMemObjectDestructorCallback
        (cl30SetMemObjectDestructorCallbackCall m ud)
  | .setProgramReleaseCallback p ud =>
      .clSetProgramReleaseCallback (cl30SetProgramReleaseCallbackCall p ud)
  | .createContext props nd d n ud er =>
      .clCreateContext (cl30CreateContextCall props nd d n ud er)
  | .createContextFromType props dt n ud er =>
      .clCreateContextFromType (cl30CreateContextFromTypeCall props dt n ud er)
  | .setContextDestructorCallback c n ud =>
      .clSetContextDestructorCallback
        (cl30SetContextDestructorCallbackCall c n ud)
  | .enqueueNativeKernel q a asz nmo ml aml wlc wl ev =>
      .clEnqueueNativeKernel
        (cl30EnqueueNativeKernelCall q a asz nmo ml aml wlc wl ev)
  | .enqueueSVMFree q spc sp ud wlc wl ev =>
      .clEnqueueSVMFree (cl30EnqueueSVMFreeCall q spc sp ud wlc wl ev)
  | .enqueueSVMMigrateMem q spc sp sz fl wlc wl ev =>
      .clEnqueueSVMMigrateMem
        (cl30EnqueueSVMMigrateMemCall q spc sp sz fl wlc wl ev)

/-- Stepping one bridge invocation: the issued underlying call and the global
state afterwards.  The bridge code reads and writes no global data, so the
issued call is `lowerBridgeCall` of the invocation and the state is returned
unchanged. -/
def stepBridge (s : GlobalState) (c : BridgeCall) :
    UnderlyingCall × GlobalState :=
  (lowerBridgeCall c, s)

/-- Running a sequence of bridge invocations from a global state, threading the
state through and collecting the underlying calls issued, in order. -/
def runTrace : GlobalState → List BridgeCall → List UnderlyingCall
  | _, [] => []
  | s, c :: rest =>
    (stepBridge s c).1 :: runTrace (stepBridge s c).2 rest

/-! ## Claim theorems -/

/-- C1: For every registration with token T (in particular every non-null T),
the value the host callback receives as its user-data argument equals T
bit-for-bit: each C trampoline forwards the user-data pointer supplied by
OpenCL to its host entry point unchanged (the casts only reinterpret the
pointer type), and each bridge entry passes the caller's token verbatim to
OpenCL as user_data. -/
theorem userData_round_trip
    (T e m p q c ei pip props d o h inames progs sp wl ev er : Ptr)
    (st ct : Int) (nd nih nip spc wlc pil : Nat) :
    (cl30CEventCallback e st T).userDataArg = some T
    ∧ (cl30CMemObjectDestructorCallback m T).userDataArg = some T
    ∧ (cl30CProgramReleaseCallback p T).userDataArg = some T
    ∧ (cl30CProgramBuildCallback p T).userDataArg = some T
    ∧ (cl30CProgramCompileCallback p T).userDataArg = some T
    ∧ (cl30CProgramLinkCallback p T).userDataArg = some T
    ∧ (cl30CContextErrorCallback ei pip pil T).userDataArg = some T
    ∧ (cl30CContextDestructorCallback c T).userDataArg = some T
    ∧ (cl30CSvmFreeCallback q spc sp T).userDataArg = some T
    ∧ (cl30BuildProgramCall p nd d o T).userData = T
    ∧ (cl30CompileProgramCall p nd d o nih h inames T).userData = T
    ∧ (cl30LinkProgramCall c nd d o nip progs T er).userData = T
    ∧ (cl30SetEventCallbackCall e ct T).userData = T
    ∧ (cl30SetMemObjectDestructorCallbackCall m T).userData = T
    ∧ (cl30SetProgramReleaseCallbackCall p T).userData = T
    ∧ (cl30CreateContextCall props nd d ei T er).userData = T
    ∧ (cl30CreateContextFromTypeCall props nd ei T er).userData = T
    ∧ (cl30SetContextDestructorCallbackCall c ei T).userData = T
    ∧ (cl30EnqueueSVMFreeCall q spc sp T wlc wl ev).userData = T :=
  ⟨rfl, rfl, rfl, rfl, rfl, rfl, rfl, rfl, rfl, rfl, rfl, rfl, rfl, rfl, rfl,
   rfl, rfl, rfl, rfl⟩

/-- C2 counterexample: cl30SetEventCallback with a null token still passes the
trampoline (not NULL) as clSetEventCallback's callback argument, refuting the
claim that every public bridge entry registers no trampoline on a null token. -/
theorem setEventCallback_null_token_still_installs :
    (cl30SetEventCallbackCall 1 2 0).pfnNotify
      = Callback.tramp .cEventCallback
    ∧ (cl30SetEventCallbackCall 1 2 0).pfnNotify ≠ Callback.null := by
  decide

/-- C2 amended: for the bridge entries that branch on the token — program
build, compile, link and SVM-free — a null token makes the underlying OpenCL
call receive (NULL, NULL) for its callback and user-data arguments, and a
non-null token installs the corresponding trampoline and passes the token
verbatim as user_data. -/
theorem null_token_policy_branching_bridges
    (p c q d o h inames progs ud er sp wl ev : Ptr) (nd nih nip spc wlc : Nat) :
    (cl30BuildProgramCall p nd d o ud).pfnNotify
      = (if ud = 0 then Callback.null else .tramp .cProgramBuildCallback)
    ∧ (cl30BuildProgramCall p nd d o ud).userData = ud
    ∧ (cl30CompileProgramCall p nd d o nih h inames ud).pfnNotify
      = (if ud = 0 then Callback.null else .tramp .cProgramCompileCallback)
    ∧ (cl30CompileProgramCall p nd d o nih h inames ud).userData = ud
    ∧ (cl30LinkProgramCall c nd d o nip progs ud er).pfnNotify
      = (if ud = 0 then Callback.null else .tramp .cProgramLinkCallback)
    ∧ (cl30LinkProgramCall c nd d o nip progs ud er).userData = ud
    ∧ (cl30EnqueueSVMFreeCall q spc sp ud wlc wl ev).pfnFreeFunc
      = (if ud = 0 then Callback.null else .tramp .cSvmFreeCallback)
    ∧ (cl30EnqueueSVMFreeCall q spc sp ud wlc wl ev).userData = ud := by
  refine ⟨?_, rfl, ?_, rfl, ?_, rfl, ?_, rfl⟩ <;>
    by_cases hud : ud = 0 <;>
      simp [cl30BuildProgramCall, cl30CompileProgramCall, cl30LinkProgramCall,
        cl30EnqueueSVMFreeCall, hud]

/-- C3 counterexample: with a null token but a non-null notify pointer,
cl30CreateContext and cl30CreateContextFromType pass the caller's notify
pointer — not NULL — as the underlying call's callback argument, refuting the
claim that a null token alone yields a context without an error callback. -/
theorem createContext_null_token_keeps_callback :
    (cl30CreateContextCall 0 0 0 5 0 0).pfnNotify = Callback.raw 5
    ∧ (cl30CreateContextCall 0 0 0 5 0 0).pfnNotify.isNull = false
    ∧ (cl30CreateContextFromTypeCall 0 0 5 0 0).pfnNotify.isNull = false := by
  decide

/-- C3 amended: cl30CreateContext and cl30CreateContextFromType forward the
caller's notify function pointer and user-data token verbatim to the
underlying call; the context is created without an error callback exactly when
the caller passes a null notify pointer (a null token only makes the user-data
argument null). -/
theorem createContext_forwards_notify_and_token
    (props d n ud er : Ptr) (nd dt : Nat) :
    (cl30CreateContextCall props nd d n ud er).pfnNotify = Callback.raw n
    ∧ (cl30CreateContextCall props nd d n ud er).userData = ud
    ∧ ((cl30CreateContextCall props nd d n ud er).pfnNotify.isNull = true
        ↔ n = 0)
    ∧ (cl30CreateContextFromTypeCall props dt n ud er).pfnNotify
      = Callback.raw n
    ∧ (cl30CreateContextFromTypeCall props dt n ud er).userData = ud
    ∧ ((cl30CreateContextFromTypeCall props dt n ud er).pfnNotify.isNull = true
        ↔ n = 0) := by
  refine ⟨rfl, rfl, ?_, rfl, rfl, ?_⟩ <;>
    simp [cl30CreateContextCall, cl30CreateContextFromTypeCall, Callback.isNull]

/-- C4: For the program build, compile and link bridges, a null token makes
the underlying OpenCL call receive a NULL callback, which per OpenCL's
documented semantics (buildCallMode) makes the call synchronous; a non-null
token installs the corresponding trampoline and the call is asynchronous. -/
theorem program_build_null_token_synchronous
    (p c d o h inames progs ud er : Ptr) (nd nih nip : Nat) :
    (cl30BuildProgramCall p nd d o ud).pfnNotify
      = (if ud = 0 then Callback.null else .tramp .cProgramBuildCallback)
    ∧ buildCallMode (cl30BuildProgramCall p nd d o ud).pfnNotify
      = (if ud = 0 then CallMode.synchronous else CallMode.asynchronous)
    ∧ (cl30CompileProgramCall p nd d o nih h inames ud).pfnNotify
      = (if ud = 0 then Callback.null else .tramp .cProgramCompileCallback)
    ∧ buildCallMode (cl30CompileProgramCall p nd d o nih h inames ud).pfnNotify
      = (if ud = 0 then CallMode.synchronous else CallMode.asynchronous)
    ∧ (cl30LinkProgramCall c nd d o nip progs ud er).pfnNotify
      = (if ud = 0 then Callback.null else .tramp .cProgramLinkCallback)
    ∧ buildCallMode (cl30LinkProgramCall c nd d o nip progs ud er).pfnNotify
      = (if ud = 0 then CallMode.synchronous else CallMode.asynchronous) := by
  by_cases hud : ud = 0 <;>
    refine ⟨?_, ?_, ?_, ?_, ?_, ?_⟩ <;>
      simp [cl30BuildProgramCall, cl30CompileProgramCall, cl30LinkProgramCall,
        buildCallMode, Callback.isNull, hud]

/-- C5: For every one of the twelve public bridge entries, the value returned
to the caller is exactly what the wrapped OpenCL call returns, propagated
unchanged for every possible underlying behaviour — integer status for the
operation bridges, object handle plus forwarded out-parameter status pointer
for the creation bridges (cl30LinkProgram's errReturn, the two create-context
entries' errcodeReturn) — so the bridge never synthesizes an error; and for
any underlying behaviour that does not depend on which function pointer sits
in the callback slot, each of the eleven callback-slot bridges returns what a
direct call with equivalent arguments and any replacement (no-op) trampoline
in that slot would have returned (cl30EnqueueSVMMigrateMem passes no callback
at all, so its direct call is identical). -/
theorem bridge_result_propagated_unchanged
    (fB : ClBuildProgramArgs → Int) (fB0 : BuildCallSansNotify → Int)
    (fC : ClCompileProgramArgs → Int) (fC0 : CompileCallSansNotify → Int)
    (gL : ClLinkProgramArgs → Ptr) (gL0 : LinkCallSansNotify → Ptr)
    (fE : ClSetEventCallbackArgs → Int) (fE0 : EventCallSansNotify → Int)
    (fM : ClSetMemObjectDestructorCallbackArgs → Int)
    (fM0 : MemDestructorCallSansNotify → Int)
    (fR : ClSetProgramReleaseCallbackArgs → Int)
    (fR0 : ReleaseCallSansNotify → Int)
    (gX : ClCreateContextArgs → Ptr)
    (gX0 : CreateContextCallSansNotify → Ptr)
    (gY : ClCreateContextFromTypeArgs → Ptr)
    (gY0 : CreateContextFromTypeCallSansNotify → Ptr)
    (fD : ClSetContextDestructorCallbackArgs → Int)
    (fD0 : ContextDestructorCallSansNotify → Int)
    (fN : ClEnqueueNativeKernelArgs → Int)
    (fN0 : NativeKernelCallSansFunc → Int)
    (fS : ClEnqueueSVMFreeArgs → Int) (fS0 : SVMFreeCallSansFunc → Int)
    (fMg : ClEnqueueSVMMigrateMemArgs → Int)
    (p c d o h inames progs ud er e m props n ecr q a ml aml wl ev sp sz : Ptr)
    (ct : Int) (nd nih nip dt asz nmo wlc spc fl : Nat) (cb : Callback) :
    cl30BuildProgram fB p nd d o ud = fB (cl30BuildProgramCall p nd d o ud)
    ∧ cl30BuildProgram (fun x => fB0 (dropBuildNotify x)) p nd d o ud
      = fB0 (dropBuildNotify ((cl30BuildProgramCall p nd d o ud).withNotify cb))
    ∧ cl30CompileProgram fC p nd d o nih h inames ud
      = fC (cl30CompileProgramCall p nd d o nih h inames ud)
    ∧ cl30CompileProgram (fun x => fC0 (dropCompileNotify x)) p nd d o nih h
        inames ud
      = fC0 (dropCompileNotify
          ((cl30CompileProgramCall p nd d o nih h inames ud).withNotify cb))
    ∧ cl30LinkProgram gL c nd d o nip progs ud er
      = gL (cl30LinkProgramCall c nd d o nip progs ud er)
    ∧ cl30LinkProgram (fun x => gL0 (dropLinkNotify x)) c nd d o nip progs ud er
      = gL0 (dropLinkNotify
          ((cl30LinkProgramCall c nd d o nip progs ud er).withNotify cb))
    ∧ (cl30LinkProgramCall c nd d o nip progs ud er).errReturn = er
    ∧ cl30SetEventCallback fE e ct ud = fE (cl30SetEventCallbackCall e ct ud)
    ∧ cl30SetEventCallback (fun x => fE0 (dropEventNotify x)) e ct ud
      = fE0 (dropEventNotify
          ((cl30SetEventCallbackCall e ct ud).withNotify cb))
    ∧ cl30SetMemObjectDestructorCallback fM m ud
      = fM (cl30SetMemObjectDestructorCallbackCall m ud)
    ∧ cl30SetMemObjectDestructorCallback (fun x => fM0 (dropMemNotify x)) m ud
      = fM0 (dropMemNotify
          ((cl30SetMemObjectDestructorCallbackCall m ud).withNotify cb))
    ∧ cl30SetProgramReleaseCallback fR p ud
      = fR (cl30SetProgramReleaseCallbackCall p ud)
    ∧ cl30SetProgramReleaseCallback (fun x => fR0 (dropReleaseNotify x)) p ud
      = fR0 (dropReleaseNotify
          ((cl30SetProgramReleaseCallbackCall p ud).withNotify cb))
    ∧ cl30CreateContext gX props nd d n ud ecr
      = gX (cl30CreateContextCall props nd d n ud ecr)
    ∧ cl30CreateContext (fun x => gX0 (dropCreateContextNotify x)) props nd d n
        ud ecr
      = gX0 (dropCreateContextNotify
          ((cl30CreateContextCall props nd d n ud ecr).withNotify cb))
    ∧ (cl30CreateContextCall props nd d n ud ecr).errcodeReturn = ecr
    ∧ cl30CreateContextFromType gY props dt n ud ecr
      = gY (cl30CreateContextFromTypeCall props dt n ud ecr)
    ∧ cl30CreateContextFromType
        (fun x => gY0 (dropCreateContextFromTypeNotify x)) props dt n ud ecr
      = gY0 (dropCreateContextFromTypeNotify
          ((cl30CreateContextFromTypeCall props dt n ud ecr).withNotify cb))
    ∧ (cl30CreateContextFromTypeCall props dt n ud ecr).errcodeReturn = ecr
    ∧ cl30SetContextDestructorCallback fD c n ud
      = fD (cl30SetContextDestructorCallbackCall c n ud)
    ∧ cl30SetContextDestructorCallback
        (fun x => fD0 (dropContextDestructorNotify x)) c n ud
      = fD0 (dropContextDestructorNotify
          ((cl30SetContextDestructorCallbackCall c n ud).withNotify cb))
    ∧ cl30EnqueueNativeKernel fN q a asz nmo ml aml wlc wl ev
      = fN (cl30EnqueueNativeKernelCall q a asz nmo ml aml wlc wl ev)
    ∧ cl30EnqueueNativeKernel (fun x => fN0 (dropNativeKernelFunc x)) q a asz
        nmo ml aml wlc wl ev
      = fN0 (dropNativeKernelFunc
          ((cl30EnqueueNativeKernelCall q a asz nmo ml aml wlc wl
            ev).withFunc cb))
    ∧ cl30EnqueueSVMFree fS q spc sp ud wlc wl ev
      = fS (cl30EnqueueSVMFreeCall q spc sp ud wlc wl ev)
    ∧ cl30EnqueueSVMFree (fun x => fS0 (dropSVMFreeFunc x)) q spc sp ud wlc
        wl ev
      = fS0 (dropSVMFreeFunc
          ((cl30EnqueueSVMFreeCall q spc sp ud wlc wl ev).withFreeFunc cb))
    ∧ cl30EnqueueSVMMigrateMem fMg q spc sp sz fl wlc wl ev
      = fMg (cl30EnqueueSVMMigrateMemCall q spc sp sz fl wlc wl ev) :=
  ⟨rfl, rfl, rfl, rfl, rfl, rfl, rfl, rfl, rfl, rfl, rfl, rfl, rfl, rfl, rfl,
   rfl, rfl, rfl, rfl, rfl, rfl, rfl, rfl, rfl, rfl, rfl⟩

/-- C6 counterexample: cl30SetContextDestructorCallback with notify pointer 5
and a null token passes the caller's raw pointer — neither the resident
trampoline cl30CContextDestructorCallback nor NULL — to
clSetContextDestructorCallback, refuting both the installs-the-resident-
trampoline part and the null-token-skips-registration part of the claim. -/
theorem setContextDestructorCallback_forwards_raw_pointer :
    (cl30SetContextDestructorCallbackCall 1 5 0).pfnNotify = Callback.raw 5
    ∧ (cl30SetContextDestructorCallbackCall 1 5 0).pfnNotify
      ≠ Callback.tramp .cContextDestructorCallback
    ∧ (cl30SetContextDestructorCallbackCall 1 5 0).pfnNotify
      ≠ Callback.null := by
  decide

/-- C6 amended: cl30SetContextDestructorCallback forwards the caller-supplied
notify function pointer and userData verbatim to clSetContextDestructorCallback
with no null-token branch and without itself installing the resident
trampoline; the resident trampoline cl30CContextDestructorCallback passes
`(context, token)` unchanged to the host entry point. -/
theorem setContextDestructorCallback_amended (c n ud : Ptr) :
    cl30SetContextDestructorCallbackCall c n ud
      = { context := c, pfnNotify := Callback.raw n, userData := ud }
    ∧ cl30CContextDestructorCallback c ud
      = HostCall.goContextDestructorCallback c ud
    ∧ (cl30CContextDestructorCallback c ud).userDataArg = some ud :=
  ⟨rfl, rfl, rfl⟩

/-- C7: cl30EnqueueNativeKernel always supplies its own trampoline
cl30CKernelNativeCallback as the kernel function passed to
clEnqueueNativeKernel; the trampoline passes only the argument-block pointer
to the host entry point (no token argument), and the memory-object list,
arg-mem-location list and all other caller arguments are forwarded verbatim. -/
theorem enqueueNativeKernel_trampoline_and_verbatim
    (q a ml aml wl ev : Ptr) (asz nmo wlc : Nat) :
    (cl30EnqueueNativeKernelCall q a asz nmo ml aml wlc wl ev).userFunc
      = Callback.tramp .cKernelNativeCallback
    ∧ (cl30EnqueueNativeKernelCall q a asz nmo ml aml wlc wl ev).commandQueue = q
    ∧ (cl30EnqueueNativeKernelCall q a asz nmo ml aml wlc wl ev).args = a
    ∧ (cl30EnqueueNativeKernelCall q a asz nmo ml aml wlc wl ev).cbArgs = asz
    ∧ (cl30EnqueueNativeKernelCall q a asz nmo ml aml wlc wl ev).numMemObjects
      = nmo
    ∧ (cl30EnqueueNativeKernelCall q a asz nmo ml aml wlc wl ev).memList = ml
    ∧ (cl30EnqueueNativeKernelCall q a asz nmo ml aml wlc wl ev).argsMemLoc
      = aml
    ∧ (cl30EnqueueNativeKernelCall q a asz nmo ml aml wlc wl ev).waitListCount
      = wlc
    ∧ (cl30EnqueueNativeKernelCall q a asz nmo ml aml wlc wl ev).waitList = wl
    ∧ (cl30EnqueueNativeKernelCall q a asz nmo ml aml wlc wl ev).event = ev
    ∧ cl30CKernelNativeCallback a = HostCall.goKernelNativeCallback a
    ∧ (cl30CKernelNativeCallback a).userDataArg = none :=
  ⟨rfl, rfl, rfl, rfl, rfl, rfl, rfl, rfl, rfl, rfl, rfl, rfl⟩

/-- C8: cl30SetEventCallback, cl30SetMemObjectDestructorCallback and
cl30SetProgramReleaseCallback install their trampoline unconditionally: for
every userData token, including the null token, the underlying call receives
the trampoline as callback and the token (possibly NULL) as user_data, and the
trampoline invoked with a null token forwards the null token to the host
entry point. -/
theorem unconditional_trampoline_installation
    (e m p : Ptr) (ct : Int) (ud : Ptr) :
    (cl30SetEventCallbackCall e ct ud).pfnNotify
      = Callback.tramp .cEventCallback
    ∧ (cl30SetEventCallbackCall e ct ud).userData = ud
    ∧ (cl30SetMemObjectDestructorCallbackCall m ud).pfnNotify
      = Callback.tramp .cMemObjectDestructorCallback
    ∧ (cl30SetMemObjectDestructorCallbackCall m ud).userData = ud
    ∧ (cl30SetProgramReleaseCallbackCall p ud).pfnNotify
      = Callback.tramp .cProgramReleaseCallback
    ∧ (cl30SetProgramReleaseCallbackCall p ud).userData = ud
    ∧ (cl30CEventCallback e ct 0).userDataArg = some 0
    ∧ (cl30CMemObjectDestructorCallback m 0).userDataArg = some 0
    ∧ (cl30CProgramReleaseCallback p 0).userDataArg = some 0 :=
  ⟨rfl, rfl, rfl, rfl, rfl, rfl, rfl, rfl, rfl⟩

/-- C9: cl30EnqueueSVMMigrateMem performs no callback bridging: it forwards
the command queue, SVM pointer list and count, sizes, migration flags, wait
list and event out-parameter to clEnqueueSVMMigrateMem unchanged (the
underlying argument record has no callback or user-data slot), and returns the
underlying call's status unchanged for every possible underlying behaviour. -/
theorem enqueueSVMMigrateMem_pure_forwarding
    (f : ClEnqueueSVMMigrateMemArgs → Int)
    (q sp sz wl ev : Ptr) (spc fl wlc : Nat) :
    cl30EnqueueSVMMigrateMem f q spc sp sz fl wlc wl ev
      = f { commandQueue := q, svmPointerCount := spc, svmPointers := sp,
            sizes := sz, flags := fl, waitListCount := wlc, waitList := wl,
            event := ev }
    ∧ cl30EnqueueSVMMigrateMemCall q spc sp sz fl wlc wl ev
      = { commandQueue := q, svmPointerCount := spc, svmPointers := sp,
          sizes := sz, flags := fl, waitListCount := wlc, waitList := wl,
          event := ev } :=
  ⟨rfl, rfl⟩

/-- C10: the bridge is stateless and deterministic: with the bridge's global
mutable state embedded as the empty record GlobalState (the C sources declare
no global or static data), running any sequence of bridge invocations from any
state issues, for each invocation, exactly the underlying call determined by
that invocation's arguments alone — so the issued calls are independent of the
starting state and of the invocation's position in the trace, and two
invocations with identical arguments issue identical underlying calls; each
step leaves the state unchanged. -/
theorem bridge_stateless_deterministic
    (s s' : GlobalState) (trace : List BridgeCall) (c : BridgeCall) :
    runTrace s trace = trace.map lowerBridgeCall
    ∧ runTrace s trace = runTrace s' trace
    ∧ stepBridge s c = (lowerBridgeCall c, s) := by
  have hmap : ∀ (t : List BridgeCall) (s0 : GlobalState),
      runTrace s0 t = t.map lowerBridgeCall := by
    intro t
    induction t with
    | nil => intro s0; rfl
    | cons hd tl ih =>
        intro s0
        simp [runTrace, stepBridge, ih]
  exact ⟨hmap trace s, (hmap trace s).trans (hmap trace s').symm, rfl⟩

end CL30
